import Mathlib

/-!
Verification of the sensor HAL configuration header
`hwmsen_custom.h` (mt6739 demo sensor configuration).

The header is purely declarative: it defines compile-time constants for
a sensor limits table, a per-type minimum-delay table, and a single
uncalibrated-pressure sensor descriptor.  We embed each `#define` as a
Lean constant.  Integer constants become `Nat`; the floating-point
literals `1572.86f` and `0.0016` are read as exact rationals (`Rat`).
The flags constant expands to the external symbol
`SENSOR_FLAG_CONTINUOUS_MODE`, which is not defined in this header, so
it is embedded as a function of that external value.
-/

namespace HwmsenCustom

/-- `#define MAX_NUM_SENSORS 1` -/
def MAX_NUM_SENSORS : Nat := 1

/-- `#define MAGNETOMETER_MINDELAY 20000` -/
def MAGNETOMETER_MINDELAY : Nat := 20000

/-- `#define ORIENTATION_MINDELAY 20000` -/
def ORIENTATION_MINDELAY : Nat := 20000

/-- `#define ACCELEROMETER_MINDELAY 10000` -/
def ACCELEROMETER_MINDELAY : Nat := 10000

/-- `#define GYROSCOPE_MINDELAY 10000` -/
def GYROSCOPE_MINDELAY : Nat := 10000

/-- `#define UNCALI_PRESSURE "UNCALI_PRESSURE"` (the sensor name). -/
def UNCALI_PRESSURE : String := "UNCALI_PRESSURE"

/-- `#define UNCALI_PRESSURE_VENDER "Bosch"` -/
def UNCALI_PRESSURE_VENDER : String := "Bosch"

/-- `#define UNCALI_PRESSURE_VERSION 1` -/
def UNCALI_PRESSURE_VERSION : Nat := 1

/-- `#define UNCALI_PRESSURE_RANGE 1572.86f`, read as an exact rational. -/
def UNCALI_PRESSURE_RANGE : Rat := 1572.86

/-- `#define UNCALI_PRESSURE_RESOLUTION 0.0016`, read as an exact rational. -/
def UNCALI_PRESSURE_RESOLUTION : Rat := 0.0016

/-- `#define UNCALI_PRESSURE_POWER 0`, read as an exact rational (mA). -/
def UNCALI_PRESSURE_POWER : Rat := 0

/-- `#define UNCALI_PRESSURE_MINDELAY 20000` -/
def UNCALI_PRESSURE_MINDELAY : Nat := 20000

/-- `#define UNCALI_PRESSURE_FIFO_MAX_COUNT 0` -/
def UNCALI_PRESSURE_FIFO_MAX_COUNT : Nat := 0

/-- `#define UNCALI_PRESSURE_FIFO_RESERVE_COUNT 0` -/
def UNCALI_PRESSURE_FIFO_RESERVE_COUNT : Nat := 0

/-- `#define UNCALI_PRESSURE_MAXDELAY 1000000` -/
def UNCALI_PRESSURE_MAXDELAY : Nat := 1000000

/-- `#define UNCALI_PRESSURE_FLAGS SENSOR_FLAG_CONTINUOUS_MODE`.
The macro expands textually to the external symbol
`SENSOR_FLAG_CONTINUOUS_MODE`, whose numeric value is defined outside
this header; we embed the macro as the identity on that external value. -/
def UNCALI_PRESSURE_FLAGS (SENSOR_FLAG_CONTINUOUS_MODE : Nat) : Nat :=
  SENSOR_FLAG_CONTINUOUS_MODE

/-- A sensor descriptor record, with the fields the header populates
(the data model of the configuration surface). -/
structure SensorDescriptor where
  name : String
  vendor : String
  version : Nat
  range : Rat
  resolution : Rat
  power : Rat
  min_delay : Nat
  max_delay : Nat
  fifo_max_count : Nat
  fifo_reserve_count : Nat
  flags : Nat
  deriving Repr, DecidableEq

/-- The uncalibrated-pressure descriptor assembled from the header's
constants, parameterised by the external continuous-mode flag value. -/
def uncaliPressureDescriptor (SENSOR_FLAG_CONTINUOUS_MODE : Nat) :
    SensorDescriptor :=
  { name := UNCALI_PRESSURE
    vendor := UNCALI_PRESSURE_VENDER
    version := UNCALI_PRESSURE_VERSION
    range := UNCALI_PRESSURE_RANGE
    resolution := UNCALI_PRESSURE_RESOLUTION
    power := UNCALI_PRESSURE_POWER
    min_delay := UNCALI_PRESSURE_MINDELAY
    max_delay := UNCALI_PRESSURE_MAXDELAY
    fifo_max_count := UNCALI_PRESSURE_FIFO_MAX_COUNT
    fifo_reserve_count := UNCALI_PRESSURE_FIFO_RESERVE_COUNT
    flags := UNCALI_PRESSURE_FLAGS SENSOR_FLAG_CONTINUOUS_MODE }

/-- The list of sensor descriptors defined by this header: exactly the
uncalibrated-pressure one.  This is what a consumer enumerating the
module's descriptors sees. -/
def sensorDescriptors (SENSOR_FLAG_CONTINUOUS_MODE : Nat) :
    List SensorDescriptor :=
  [uncaliPressureDescriptor SENSOR_FLAG_CONTINUOUS_MODE]

end HwmsenCustom

namespace HwmsenCustom

/-- Claim C1: exactly one sensor descriptor is defined by the module,
the uncalibrated-pressure one: enumerating the descriptors yields
exactly 1 sensor, whose name is "UNCALI_PRESSURE", vendor is "Bosch",
min_delay is 20000, max_delay is 1000000, and fifo_max_count is 0,
whatever value the external continuous-mode flag takes. -/
theorem C1_single_uncali_pressure_descriptor (flag : Nat) :
    (sensorDescriptors flag).length = 1 ∧
    sensorDescriptors flag = [uncaliPressureDescriptor flag] ∧
    (uncaliPressureDescriptor flag).name = "UNCALI_PRESSURE" ∧
    (uncaliPressureDescriptor flag).vendor = "Bosch" ∧
    (uncaliPressureDescriptor flag).min_delay = 20000 ∧
    (uncaliPressureDescriptor flag).max_delay = 1000000 ∧
    (uncaliPressureDescriptor flag).fifo_max_count = 0 := by
  refine ⟨rfl, rfl, rfl, rfl, rfl, rfl, rfl⟩

/-- Claim C2: MAX_NUM_SENSORS equals 1, hence is at least 1 and at
least the number of sensor descriptors defined by the module. -/
theorem C2_max_num_sensors :
    MAX_NUM_SENSORS = 1 ∧
    1 ≤ MAX_NUM_SENSORS ∧
    ∀ flag : Nat, (sensorDescriptors flag).length ≤ MAX_NUM_SENSORS := by
  exact ⟨rfl, le_refl 1, fun _ => le_refl 1⟩

/-- Claim C3: the four per-type minimum-delay constants have exactly
the values 20000, 20000, 10000, 10000 and each is positive. -/
theorem C3_mindelay_values :
    MAGNETOMETER_MINDELAY = 20000 ∧
    ORIENTATION_MINDELAY = 20000 ∧
    ACCELEROMETER_MINDELAY = 10000 ∧
    GYROSCOPE_MINDELAY = 10000 ∧
    0 < MAGNETOMETER_MINDELAY ∧
    0 < ORIENTATION_MINDELAY ∧
    0 < ACCELEROMETER_MINDELAY ∧
    0 < GYROSCOPE_MINDELAY := by
  decide

/-- Claim C4: for the uncalibrated-pressure descriptor the minimum
delay does not exceed the maximum delay: 20000 ≤ 1000000. -/
theorem C4_mindelay_le_maxdelay :
    UNCALI_PRESSURE_MINDELAY ≤ UNCALI_PRESSURE_MAXDELAY ∧
    UNCALI_PRESSURE_MINDELAY = 20000 ∧
    UNCALI_PRESSURE_MAXDELAY = 1000000 := by
  decide

/-- Claim C5: the reserved FIFO slot count does not exceed the FIFO
capacity: 0 ≤ 0. -/
theorem C5_fifo_reserve_le_max :
    UNCALI_PRESSURE_FIFO_RESERVE_COUNT ≤ UNCALI_PRESSURE_FIFO_MAX_COUNT ∧
    UNCALI_PRESSURE_FIFO_RESERVE_COUNT = 0 ∧
    UNCALI_PRESSURE_FIFO_MAX_COUNT = 0 := by
  decide

/-- Claim C6: the remaining numeric descriptor fields match the
external-interface table exactly: version 1, range 1572.86, resolution
0.0016, power 0 (as exact rationals), max delay 1000000. -/
theorem C6_numeric_field_values :
    UNCALI_PRESSURE_VERSION = 1 ∧
    UNCALI_PRESSURE_RANGE = (157286 : Rat) / 100 ∧
    UNCALI_PRESSURE_RESOLUTION = (16 : Rat) / 10000 ∧
    UNCALI_PRESSURE_POWER = 0 ∧
    UNCALI_PRESSURE_MAXDELAY = 1000000 := by
  refine ⟨rfl, by norm_num [UNCALI_PRESSURE_RANGE],
    by norm_num [UNCALI_PRESSURE_RESOLUTION], rfl, rfl⟩

/-- Claim C7: both string constants of the module are non-empty: the
name equals "UNCALI_PRESSURE" and the vendor equals "Bosch", each of
positive length. -/
theorem C7_strings_nonempty :
    UNCALI_PRESSURE = "UNCALI_PRESSURE" ∧
    UNCALI_PRESSURE_VENDER = "Bosch" ∧
    0 < UNCALI_PRESSURE.length ∧
    0 < UNCALI_PRESSURE_VENDER.length := by
  refine ⟨rfl, rfl, by decide, by decide⟩

/-- Claim C8: UNCALI_PRESSURE_FLAGS is exactly the external
continuous-mode flag: for every value v of the external symbol
SENSOR_FLAG_CONTINUOUS_MODE, the flags constant (and the descriptor's
flags field) equals v; no numeric value is fixed by this module. -/
theorem C8_flags_is_external_symbol (v : Nat) :
    UNCALI_PRESSURE_FLAGS v = v ∧
    (uncaliPressureDescriptor v).flags = v := by
  exact ⟨rfl, rfl⟩

/-- Claim C9: the minimum-delay constants satisfy
MAGNETOMETER = ORIENTATION = UNCALI_PRESSURE mindelay,
ACCELEROMETER = GYROSCOPE mindelay, and the magnetometer floor is
exactly twice the accelerometer floor. -/
theorem C9_mindelay_relations :
    MAGNETOMETER_MINDELAY = ORIENTATION_MINDELAY ∧
    ORIENTATION_MINDELAY = UNCALI_PRESSURE_MINDELAY ∧
    ACCELEROMETER_MINDELAY = GYROSCOPE_MINDELAY ∧
    MAGNETOMETER_MINDELAY = 2 * ACCELEROMETER_MINDELAY := by
  decide

/-- Claim C10: the measurement parameters are well-ordered:
0 < resolution < range as exact rationals (0 < 0.0016 < 1572.86). -/
theorem C10_resolution_lt_range :
    0 < UNCALI_PRESSURE_RESOLUTION ∧
    UNCALI_PRESSURE_RESOLUTION < UNCALI_PRESSURE_RANGE := by
  constructor
  · norm_num [UNCALI_PRESSURE_RESOLUTION]
  · norm_num [UNCALI_PRESSURE_RESOLUTION, UNCALI_PRESSURE_RANGE]

end HwmsenCustom
